import Mathlib

/-!
Verification of the follower-resolution pipeline (checkpoint store, dual
lookup sources, rate limiter) against its natural-language specification.

The Python source is shallowly embedded: the SQLite `followers` table is a
`List Follower`, SQL queries become filter/sort/take over that list, the
rate limiter becomes an explicit state record with time and random draws
passed as arguments, and exceptions become `Except`/sum types.
-/

set_option maxHeartbeats 1000000

namespace InstaReviewer

/-- models.py `LookupStatus`: the five work-item states. -/
inductive LookupStatus : Type
  | pending
  | graph_api_miss
  | success
  | failed
  | rate_limited
deriving DecidableEq, Repr

/-- models.py `Follower` dataclass / one row of the `followers` table.
`followed_at` is a unix timestamp; counts are optional until resolved. -/
structure Follower where
  username : String
  followed_at : Option Int := none
  follower_count : Option Nat := none
  following_count : Option Nat := none
  full_name : Option String := none
  is_verified : Option Bool := none
  is_private : Option Bool := none
  lookup_status : LookupStatus := .pending
  lookup_source : Option String := none
  error_message : Option String := none
  retry_count : Nat := 0
deriving DecidableEq, Repr

/-- The WHERE clause of checkpoint.py `get_pending`:
`lookup_status IN ('pending','rate_limited') AND retry_count < max_retries`. -/
def claimable (max_retries : Nat) (f : Follower) : Prop :=
  (f.lookup_status = .pending ∨ f.lookup_status = .rate_limited) ∧
    f.retry_count < max_retries

instance (m : Nat) (f : Follower) : Decidable (claimable m f) := by
  unfold claimable; infer_instance

/-- The ORDER BY clause of `get_pending`: `retry_count ASC, username ASC`
(username is the primary key, so this is a total order on rows). -/
def pendingOrder (a b : Follower) : Prop :=
  a.retry_count < b.retry_count ∨
    (a.retry_count = b.retry_count ∧ a.username ≤ b.username)

instance : DecidableRel pendingOrder := fun a b => by
  unfold pendingOrder; infer_instance

instance : IsTotal Follower pendingOrder where
  total a b := by
    unfold pendingOrder
    rcases Nat.lt_trichotomy a.retry_count b.retry_count with h | h | h
    · exact Or.inl (Or.inl h)
    · rcases le_total a.username b.username with hu | hu
      · exact Or.inl (Or.inr ⟨h, hu⟩)
      · exact Or.inr (Or.inr ⟨h.symm, hu⟩)
    · exact Or.inr (Or.inl h)

instance : IsTrans Follower pendingOrder where
  trans a b c hab hbc := by
    unfold pendingOrder at hab hbc ⊢
    rcases hab with h1 | ⟨e1, u1⟩ <;> rcases hbc with h2 | ⟨e2, u2⟩
    · exact Or.inl (h1.trans h2)
    · exact Or.inl (e2 ▸ h1)
    · exact Or.inl (e1 ▸ h2)
    · exact Or.inr ⟨e1.trans e2, u1.trans u2⟩

/-- checkpoint.py `get_pending(batch_size, max_retries)`: SELECT rows whose
status is `pending` or `rate_limited` with `retry_count < max_retries`,
ORDER BY `retry_count ASC, username ASC`, LIMIT `batch_size`. -/
def get_pending (db : List Follower) (batch_size max_retries : Nat) :
    List Follower :=
  ((db.filter (fun f => decide (claimable max_retries f))).insertionSort
    pendingOrder).take batch_size

/-- checkpoint.py `update_result`: `UPDATE followers SET ... WHERE
username = ?`. It touches every column except `username` and `followed_at`
on the matching row and is a no-op when no row matches. -/
def update_result (db : List Follower) (f : Follower) : List Follower :=
  db.map fun r =>
    if r.username = f.username then
      { r with
        follower_count := f.follower_count
        following_count := f.following_count
        full_name := f.full_name
        is_verified := f.is_verified
        is_private := f.is_private
        lookup_status := f.lookup_status
        lookup_source := f.lookup_source
        error_message := f.error_message
        retry_count := f.retry_count }
    else r

/-- Row count for one status, as produced by the GROUP BY in `get_stats`. -/
def countStatus (db : List Follower) (st : LookupStatus) : Nat :=
  (db.filter (fun f => decide (f.lookup_status = st))).length

/-- checkpoint.py `get_stats`: the numeric entries of the returned dict, as
a string-keyed association list (the Python dict is string-keyed, so key
presence is meaningful).  Note the dict has no "graph_api_miss" entry. -/
def get_stats (db : List Follower) : List (String × Nat) :=
  [("total", db.length),
   ("pending", countStatus db .pending),
   ("success", countStatus db .success),
   ("failed", countStatus db .failed),
   ("rate_limited", countStatus db .rate_limited)]

/-- The distinct `lookup_source` values among `success` rows. -/
def successSources (db : List Follower) : List (Option String) :=
  ((db.filter (fun f => decide (f.lookup_status = .success))).map
    (fun f => f.lookup_source)).dedup

/-- checkpoint.py `get_stats`: the "by_source" entry — resolved-by-source
counts via `GROUP BY lookup_source` over `success` rows. -/
def get_stats_by_source (db : List Follower) : List (Option String × Nat) :=
  (successSources db).map fun s =>
    (s, ((db.filter (fun f => decide (f.lookup_status = .success))).filter
      (fun f => decide (f.lookup_source = s))).length)

/-- Outcome of main.py `_print_stats`: it either early-returns on an empty
store, renders a report, or raises `KeyError` when a key it reads is
absent from the stats dict. -/
inductive PrintResult : Type
  | empty
  | keyError
  | report (total success pending graph_api_miss failed rate_limited : Nat)
deriving DecidableEq, Repr

/-- main.py `_print_stats`: reads `stats["total"]`, early-returns when it is
zero, otherwise reads the five per-status entries (including
`stats["graph_api_miss"]`); a missing key is a `KeyError`. -/
def print_stats (db : List Follower) : PrintResult :=
  match (get_stats db).lookup "total" with
  | none => .keyError
  | some total =>
    if total = 0 then .empty
    else
      match (get_stats db).lookup "success", (get_stats db).lookup "pending",
          (get_stats db).lookup "graph_api_miss",
          (get_stats db).lookup "failed",
          (get_stats db).lookup "rate_limited" with
      | some s, some p, some g, some fl, some r => .report total s p g fl r
      | _, _, _, _, _ => .keyError

/-- rate_limiter.py `RateLimiter`: configuration knobs (defaults from
`__init__`) plus mutable state.  Timestamps are rationals (the Python code
uses `time.monotonic()` floats).  `next_long_pause_at` is drawn with
`randint(long_pause_interval_min, long_pause_interval_max)` at
construction; concrete instances supply the drawn value. -/
structure RateLimiter where
  min_delay : ℚ := 30
  max_delay : ℚ := 90
  hourly_cap : Nat := 40
  session_cap : Nat := 150
  session_rest : ℚ := 7200
  daily_cap : Nat := 400
  rate_limit_cooldown : ℚ := 1800
  long_pause_min : ℚ := 120
  long_pause_max : ℚ := 300
  long_pause_interval_min : Nat := 10
  long_pause_interval_max : Nat := 20
  hourly_timestamps : List ℚ := []
  daily_timestamps : List ℚ := []
  session_count : Nat := 0
  since_long_pause : Nat := 0
  next_long_pause_at : Nat := 10
  consecutive_rate_limits : Nat := 0
deriving DecidableEq, Repr

/-- rate_limiter.py `_prune_old` / `_prune_daily`: pop timestamps from the
left of the deque while the head is older than the cutoff. -/
def prune (cutoff : ℚ) : List ℚ → List ℚ
  | [] => []
  | t :: ts => if t < cutoff then prune cutoff ts else t :: ts

/-- What one `wait_before_request` call does: raise `StopIteration`
(carrying the time until the daily window frees, when known), or sleep for
a session rest / hourly-cap wait / long pause / jitter delay. -/
inductive WaitAction : Type
  | stop (resume : Option ℚ)
  | sessionRest (dur : ℚ)
  | hourlyWait (dur : ℚ)
  | longPause (dur : ℚ)
  | jitter (dur : ℚ)
deriving DecidableEq, Repr

/-- The tail of `wait_before_request` reached when no cap fired: the
occasional long pause (when `since_long_pause` has reached the rolled
threshold) or the standard jitter delay.  `pauseDraw` and `jitterDraw` are
the `random.uniform` results, `nextDraw` the re-rolled `randint`. -/
def afterCaps (rl : RateLimiter) (pauseDraw jitterDraw : ℚ) (nextDraw : Nat) :
    WaitAction × RateLimiter :=
  if rl.next_long_pause_at ≤ rl.since_long_pause then
    (.longPause pauseDraw,
      { rl with since_long_pause := 0, next_long_pause_at := nextDraw })
  else
    (.jitter jitterDraw, rl)

/-- rate_limiter.py `wait_before_request`, checks in source order: daily
cap (raises `StopIteration`, reporting when the oldest daily event exits
the 24h window), then session cap (rest, counter reset to 0), then hourly
cap (wait until the oldest hourly event exits the 1h window, when that
wait is positive), then long pause / jitter.  The second `_prune_daily`
and `_prune_old` calls inside the branches are no-ops on the already
pruned deques and are folded into the single prune here. -/
def wait_before_request (rl : RateLimiter) (now pauseDraw jitterDraw : ℚ)
    (nextDraw : Nat) : WaitAction × RateLimiter :=
  let daily := prune (now - 86400) rl.daily_timestamps
  let rl1 := { rl with daily_timestamps := daily }
  if rl.daily_cap ≤ daily.length then
    match daily with
    | t :: _ => (.stop (some (86400 - (now - t))), rl1)
    | [] => (.stop none, rl1)
  else if rl.session_cap ≤ rl.session_count then
    (.sessionRest rl.session_rest, { rl1 with session_count := 0 })
  else
    let hourly := prune (now - 3600) rl.hourly_timestamps
    let rl2 := { rl1 with hourly_timestamps := hourly }
    if rl.hourly_cap ≤ hourly.length then
      match hourly with
      | t :: _ =>
        if 0 < 3600 - (now - t) then (.hourlyWait (3600 - (now - t)), rl2)
        else afterCaps rl2 pauseDraw jitterDraw nextDraw
      | [] => afterCaps rl2 pauseDraw jitterDraw nextDraw
    else afterCaps rl2 pauseDraw jitterDraw nextDraw

/-- rate_limiter.py `record_request`: append `now` to both rolling windows,
bump the session and since-long-pause counters, reset the consecutive
throttle counter. -/
def record_request (rl : RateLimiter) (now : ℚ) : RateLimiter :=
  { rl with
    hourly_timestamps := rl.hourly_timestamps ++ [now]
    daily_timestamps := rl.daily_timestamps ++ [now]
    session_count := rl.session_count + 1
    since_long_pause := rl.since_long_pause + 1
    consecutive_rate_limits := 0 }

/-- rate_limiter.py `handle_rate_limit`: increment the consecutive counter
to `c+1`, sleep `rate_limit_cooldown * 2^(c+1-1)`.  Returns the slept
backoff and the new state; the rolling windows are untouched. -/
def handle_rate_limit (rl : RateLimiter) : ℚ × RateLimiter :=
  let c := rl.consecutive_rate_limits + 1
  (rl.rate_limit_cooldown * 2 ^ (c - 1),
    { rl with consecutive_rate_limits := c })

/-- `n` consecutive `handle_rate_limit` calls (state only). -/
def handleIter : Nat → RateLimiter → RateLimiter
  | 0, rl => rl
  | n + 1, rl => handleIter n (handle_rate_limit rl).2

/-- lookup_graph_api.py `_DEFAULT_NO_HEADER_DELAY`: the fixed delay used
when no usage header is available. -/
def DEFAULT_NO_HEADER_DELAY : ℚ := 10

/-- lookup_graph_api.py `_delay_from_usage`: the usage dict is modelled by
its optional `call_count` entry (`none` = empty dict or missing key). -/
def delay_from_usage (usage : Option Int) : ℚ :=
  match usage with
  | none => DEFAULT_NO_HEADER_DELAY
  | some call_count =>
    if 95 ≤ call_count then 300
    else if 80 ≤ call_count then 60
    else if 60 ≤ call_count then 20
    else if 40 ≤ call_count then 5
    else 1

/-- config.py defaults for the Graph API source: `graph_api_min_delay`,
`graph_api_max_delay`, `graph_api_hourly_cap`. -/
def graph_api_min_delay : ℚ := 17
def graph_api_max_delay : ℚ := 21
def graph_api_hourly_cap : Nat := 200

/-- Modelled from the spec (the code has no such object): the generic
admit() rate limiter of section 4.1 "configured for this source
(no session/daily ceiling — official API quotas are hourly only)" that the
spec says the no-telemetry delay falls back to.  Fresh state, Graph API
delay bounds and hourly cap, session/daily ceilings effectively disabled. -/
def specGraphApiFallbackLimiter : RateLimiter :=
  { min_delay := graph_api_min_delay
    max_delay := graph_api_max_delay
    hourly_cap := graph_api_hourly_cap
    session_cap := 1000000000
    daily_cap := 1000000000 }

/-- The `business_discovery` payload of a Graph API sub-response body. -/
structure BizDiscovery where
  followers_count : Option Nat := none
  follows_count : Option Nat := none
  name : Option String := none
deriving DecidableEq, Repr

/-- The `error` object of a Graph API sub-response body (`code` and
`message` may each be absent). -/
structure GraphError where
  code : Option Int := none
  message : Option String := none
deriving DecidableEq, Repr

/-- A parsed Graph API sub-response body.  `raw` is `str(body)`, used by
the source as the fallback error message (truncated to 200 chars). -/
structure SubBody where
  business_discovery : Option BizDiscovery := none
  error : Option GraphError := none
  raw : String := ""
deriving DecidableEq, Repr

/-- One sub-response of the Facebook batch call: `sub_resp.get("code", 0)`
plus the JSON-decoded body. -/
structure SubResponse where
  code : Int := 0
  body : SubBody := {}
deriving DecidableEq, Repr

/-- lookup_graph_api.py `_parse_sub_response`: classify one sub-response
into the follower's new state (success / 429 / FB codes 4 and 32 as rate
limiting / everything else as `graph_api_miss`).  `retry_count` is not
touched on any path. -/
def parse_sub_response (f : Follower) (r : SubResponse) : Follower :=
  if r.code = 200 then
    let data := r.body.business_discovery.getD {}
    { f with
      follower_count := data.followers_count
      following_count := data.follows_count
      full_name := data.name
      is_verified := none
      is_private := some false
      lookup_status := .success
      lookup_source := some "graph_api"
      error_message := none }
  else if r.code = 429 then
    { f with lookup_status := .rate_limited,
             error_message := some "429 rate limited" }
  else
    let err := r.body.error.getD {}
    let error_msg := err.message.getD (r.body.raw.take 200)
    if err.code = some 4 ∨ err.code = some 32 then
      { f with lookup_status := .rate_limited,
               error_message := some ("Rate limit: " ++ error_msg) }
    else
      { f with lookup_status := .graph_api_miss,
               error_message := some ("Graph API: " ++ error_msg) }

/-- Lowercasing used for Python `str(e).lower()`. -/
def strLower (s : String) : String := String.mk (s.data.map Char.toLower)

/-- Python `sub in s` on strings: some rotation of `s` starts with `sub`. -/
def strContains (s sub : String) : Bool :=
  (List.range (s.length + 1)).any fun i =>
    sub.data.isPrefixOf (s.data.drop i)

/-- What the scraping library can come back with for one profile fetch,
one constructor per handled exception class of `_lookup_single` (the last
constructor is the bare `except Exception` case). -/
inductive FetchOutcome : Type
  | profile (followers following : Nat) (name : String)
      (verified priv : Bool)
  | notExists
  | loginRequired (msg : String)
  | tooManyRequests (msg : String)
  | connectionError (msg : String)
  | otherError (msg : String)
deriving DecidableEq, Repr

/-- The operator-facing abort message for an expired session. -/
def sessionExpiredMsg : String :=
  "Session expired (LoginRequired). Run python main.py login to " ++
    "re-authenticate, then resume with python main.py lookup " ++
    "--mode instaloader"

/-- The operator-facing abort message for a challenge/checkpoint. -/
def challengeMsg (e : String) : String :=
  "Instagram challenge/checkpoint detected: " ++ e ++
    ". Log into Instagram manually, complete the challenge, " ++
    "then run python main.py login and resume."

/-- The operator-facing abort message for a suspicious 400/403 error. -/
def suspiciousMsg (e : String) : String :=
  "Suspicious HTTP error (" ++ e ++ "). Stopping to protect account. " ++
    "Wait several hours, then resume."

/-- lookup_instaloader.py `_lookup_single`: classify one profile fetch.
`Except.error` models the raised `InstaloaderAbort`. -/
def lookup_single (f : Follower) (o : FetchOutcome) :
    Except String Follower :=
  match o with
  | .profile followers following name verified priv =>
    .ok { f with
      follower_count := some followers
      following_count := some following
      full_name := some name
      is_verified := some verified
      is_private := some priv
      lookup_status := .success
      lookup_source := some "instaloader"
      error_message := none }
  | .notExists =>
    .ok { f with
      lookup_status := .failed
      error_message := some "Profile does not exist"
      retry_count := 999 }
  | .loginRequired _ => .error sessionExpiredMsg
  | .tooManyRequests msg =>
    .ok { f with
      lookup_status := .rate_limited
      error_message := some ("429 Too Many Requests: " ++ msg) }
  | .connectionError msg =>
    if strContains (strLower msg) "checkpoint" ∨
        strContains (strLower msg) "challenge" then
      .error (challengeMsg msg)
    else if strContains msg "400" ∨ strContains msg "403" then
      .error (suspiciousMsg msg)
    else
      .ok { f with
        lookup_status := .rate_limited
        error_message := some ("Connection error: " ++ msg)
        retry_count := f.retry_count + 1 }
  | .otherError msg =>
    .ok { f with
      lookup_status := .failed
      error_message := some ("Unexpected error: " ++ msg)
      retry_count := f.retry_count + 1 }

/-- Result of one `limiter.wait_before_request()` call at a loop step:
either it returned normally or it raised `StopIteration` (daily cap). -/
inductive AdmitResult : Type
  | ok
  | stopDaily (msg : String)
deriving DecidableEq, Repr

/-- The `_make_stats` dict returned by `lookup_instaloader`. -/
structure InstaStats where
  processed : Nat
  success : Nat
  failed : Nat
  stop_reason : String
deriving DecidableEq, Repr

/-- Outcome of the inner `for follower in batch` loop: either the batch was
fully consumed (carry the updated store and counters back to the outer
`while`), or a `return` fired (daily-cap stop or `InstaloaderAbort`). -/
inductive BatchStep : Type
  | continued (db : List Follower) (processed success failed : Nat)
  | finished (db : List Follower) (st : InstaStats)
deriving DecidableEq, Repr

/-- The inner loop of lookup_instaloader.py: per item, consult the rate
limiter (`admits`, indexed by the processed count, oracles the limiter
outcome), perform the lookup (`outcome` oracles the network), write the
result, update the counters.  `StopIteration` and `InstaloaderAbort`
return immediately with the store as it stands. -/
def processBatch (outcome : String → FetchOutcome)
    (admits : Nat → AdmitResult) :
    List Follower → List Follower → Nat → Nat → Nat → BatchStep
  | db, [], p, s, k => .continued db p s k
  | db, f :: rest, p, s, k =>
    match admits p with
    | .stopDaily _ => .finished db ⟨p, s, k, "daily_cap"⟩
    | .ok =>
      match lookup_single f (outcome f.username) with
      | .error m => .finished db ⟨p, s, k, m⟩
      | .ok r =>
        let db1 := update_result db r
        if r.lookup_status = .success then
          processBatch outcome admits db1 rest (p + 1) (s + 1) k
        else if r.lookup_status = .rate_limited then
          processBatch outcome admits db1 rest (p + 1) s k
        else
          processBatch outcome admits db1 rest (p + 1) s (k + 1)

/-- The outer `while True` loop of lookup_instaloader.py: claim a batch via
`get_pending`, stop with "completed" when it is empty, otherwise run the
inner loop and either return its stop/abort result or continue.  `fuel`
bounds the number of outer iterations (the Python loop has no such bound;
a fuel-out is reported as its own reason). -/
def runLookup (outcome : String → FetchOutcome) (admits : Nat → AdmitResult)
    (batch_size max_retries : Nat) :
    Nat → List Follower → Nat → Nat → Nat → List Follower × InstaStats
  | 0, db, p, s, k => (db, ⟨p, s, k, "out of fuel"⟩)
  | fuel + 1, db, p, s, k =>
    match get_pending db batch_size max_retries with
    | [] => (db, ⟨p, s, k, "completed"⟩)
    | f :: rest =>
      match processBatch outcome admits db (f :: rest) p s k with
      | .finished db1 st => (db1, st)
      | .continued db1 p1 s1 k1 =>
        runLookup outcome admits batch_size max_retries fuel db1 p1 s1 k1

/-! ### Concrete rows and fixtures used in witnesses and counterexamples -/

/-- The section-8 scenario row `bob` after source A soft-missed it. -/
def bobMiss : Follower :=
  { username := "bob", lookup_status := .graph_api_miss, retry_count := 1,
    error_message := some "Graph API: not a business account" }

/-- A freshly imported pending row. -/
def aliceRow : Follower := { username := "alice" }

/-- Rows with attempts 2, 0, 1 for the claim-ordering scenario. -/
def rowB : Follower := { username := "b", retry_count := 2 }
def rowA : Follower := { username := "a", retry_count := 0 }
def rowC : Follower := { username := "c", retry_count := 1 }

/-- A pending row about to hit an unexpected scraping error. -/
def daveRow : Follower := { username := "dave" }

/-- `daveRow` after `_lookup_single` catches a bare `Exception`. -/
def daveFailed : Follower :=
  { username := "dave", lookup_status := .failed,
    error_message := some "Unexpected error: boom", retry_count := 1 }

/-- An in-memory result row whose identity is absent from the store. -/
def bobResolved : Follower :=
  { username := "bob", lookup_status := .success,
    follower_count := some 10, lookup_source := some "instaloader" }

/-- Network oracle for the C5 witness: every fetch raises
`LoginRequiredException`. -/
def loginRequiredOutcome : String → FetchOutcome :=
  fun _ => .loginRequired "x"

/-- Limiter oracle for the C5 witness: `wait_before_request` returns
normally at every step. -/
def admitsOk : Nat → AdmitResult := fun _ => .ok

/-- A limiter at its daily cap (one event, cap 1). -/
def rlDaily : RateLimiter := { daily_cap := 1, daily_timestamps := [10] }

/-- A limiter at its session cap (count 2, cap 2). -/
def rlSession : RateLimiter := { session_cap := 2, session_count := 2 }

/-- A limiter at its hourly cap (one event inside the window, cap 1). -/
def rlHourly : RateLimiter :=
  { hourly_cap := 1, hourly_timestamps := [3000] }

/-- A fresh limiter (no cap reached). -/
def rlFresh : RateLimiter := {}

/-- A limiter with the backoff base of the spec scenario (base = 120). -/
def limiter120 : RateLimiter := { rate_limit_cooldown := 120 }

/-- A pending row for the C9 counterexample. -/
def carolRow : Follower := { username := "carol" }

/-- A non-200, non-429 sub-response whose error code is not a throttle
code: Graph API declines the lookup (not a business account). -/
def subResp500 : SubResponse :=
  { code := 500,
    body := { error := some { code := some 100,
                              message := some "not a business account" },
              raw := "raw body" } }

/-! ### Helper lemmas -/

/-- Every row returned by `get_pending` satisfies the WHERE clause. -/
theorem mem_get_pending {db : List Follower} {n m : Nat} {f : Follower}
    (h : f ∈ get_pending db n m) : claimable m f := by
  unfold get_pending at h
  have h1 := List.take_subset _ _ h
  rw [List.mem_insertionSort, List.mem_filter] at h1
  exact of_decide_eq_true h1.2

/-- `handleIter` only bumps the consecutive-throttle counter: both rolling
windows and the cooldown base are untouched. -/
theorem handleIter_state (n : Nat) (rl : RateLimiter) :
    (handleIter n rl).hourly_timestamps = rl.hourly_timestamps ∧
    (handleIter n rl).daily_timestamps = rl.daily_timestamps ∧
    (handleIter n rl).rate_limit_cooldown = rl.rate_limit_cooldown ∧
    (handleIter n rl).consecutive_rate_limits =
      rl.consecutive_rate_limits + n := by
  induction n generalizing rl with
  | zero => exact ⟨rfl, rfl, rfl, rfl⟩
  | succ n ih =>
    have h := ih (handle_rate_limit rl).2
    refine ⟨h.1, h.2.1, h.2.2.1, ?_⟩
    rw [handleIter, h.2.2.2]
    show rl.consecutive_rate_limits + 1 + n = _
    omega

/-! ### Claims -/

/-- C4: for every store contents, limit and retry ceiling,
`claimPending(limit, retryCeiling)` returns at most `limit` rows, each
with status Pending or Throttled and attempts below the ceiling,
sorted by ascending attempts with ties broken by ascending identity; and
no `Resolved` or `PermanentFailure` row ever appears in a result. -/
theorem claim_C4_claim_pending_contract (db : List Follower)
    (limit ceiling : Nat) :
    (get_pending db limit ceiling).length ≤ limit ∧
    (∀ f ∈ get_pending db limit ceiling,
      (f.lookup_status = .pending ∨ f.lookup_status = .rate_limited) ∧
        f.retry_count < ceiling) ∧
    List.Sorted pendingOrder (get_pending db limit ceiling) ∧
    (∀ f ∈ get_pending db limit ceiling,
      f.lookup_status ≠ .success ∧ f.lookup_status ≠ .failed) := by
  refine ⟨?_, ?_, ?_, ?_⟩
  · exact List.length_take_le _ _
  · intro f hf; exact mem_get_pending hf
  · exact List.Pairwise.sublist (List.take_sublist _ _)
      (List.sorted_insertionSort pendingOrder _)
  · intro f hf
    rcases (mem_get_pending hf).1 with h | h <;>
      simp [h]

/-- Witness for C4 at the spec section-8 ordering scenario (attempts
2, 0, 1 for identities b, a, c): row `a` is claimed and satisfies the
WHERE clause. -/
theorem claim_C4_witness :
    (rowA.lookup_status = .pending ∨ rowA.lookup_status = .rate_limited) ∧
      rowA.retry_count < 3 :=
  (claim_C4_claim_pending_contract [rowB, rowA, rowC] 10 3).2.1 rowA
    (by decide)

/-- C1: the claim fails on the code — `get_pending` selects only statuses
`pending` and `rate_limited`, so a `graph_api_miss` (SoftMiss) row such as
the section-8 `bob` is never returned in any subsequent batch, for any
limit and retry ceiling, and no claimed row ever has status
`graph_api_miss`. -/
theorem claim_C1_soft_miss_never_reclaimed :
    (∀ limit ceiling : Nat, get_pending [bobMiss] limit ceiling = []) ∧
    (∀ (db : List Follower) (limit ceiling : Nat) (f : Follower),
      f ∈ get_pending db limit ceiling →
        f.lookup_status ≠ .graph_api_miss) := by
  constructor
  · intro limit ceiling
    have hnc : decide (claimable ceiling bobMiss) = false := by
      simp [claimable, bobMiss]
    unfold get_pending
    rw [List.filter_cons, hnc]
    simp
  · intro db limit ceiling f hf
    rcases (mem_get_pending hf).1 with h | h <;> simp [h]

/-- Witness for C1: a claimed row (here `a`, pending, attempts 0) indeed
does not have status `graph_api_miss`. -/
theorem claim_C1_witness : rowA.lookup_status ≠ .graph_api_miss :=
  claim_C1_soft_miss_never_reclaimed.2 [rowA] 1 1 rowA (by decide)

/-- C2: the first half of the claim holds — an unexpected error yields
status `failed` with attempts incremented by 1 — but the item does not
remain retryable: `get_pending` never returns a `failed` row, whatever its
attempts and whatever the retry ceiling, so the classification is
instantly terminal. -/
theorem claim_C2_failed_never_reclaimed :
    lookup_single daveRow (.otherError "boom") = .ok daveFailed ∧
    daveFailed.lookup_status = .failed ∧
    daveFailed.retry_count = daveRow.retry_count + 1 ∧
    (∀ limit ceiling : Nat, get_pending [daveFailed] limit ceiling = []) ∧
    (∀ (db : List Follower) (limit ceiling : Nat) (f : Follower),
      f ∈ get_pending db limit ceiling → f.lookup_status ≠ .failed) := by
  refine ⟨rfl, rfl, rfl, ?_, ?_⟩
  · intro limit ceiling
    have hnc : decide (claimable ceiling daveFailed) = false := by
      simp [claimable, daveFailed]
    unfold get_pending
    rw [List.filter_cons, hnc]
    simp
  · intro db limit ceiling f hf
    rcases (mem_get_pending hf).1 with h | h <;> simp [h]

/-- Witness for C2: a claimed row (here `a`, pending, attempts 0) indeed
does not have status `failed`. -/
theorem claim_C2_witness : rowA.lookup_status ≠ .failed :=
  claim_C2_failed_never_reclaimed.2.2.2.2 [rowA] 1 1 rowA (by decide)

/-- C3: the claim fails on the code — the stats dict returned by
`get_stats` has no "graph_api_miss" entry for any store contents, and the
progress printer, which reads that entry on every non-empty store, hits a
`KeyError`. -/
theorem claim_C3_stats_missing_status (db : List Follower) :
    (get_stats db).lookup "graph_api_miss" = none ∧
    print_stats (aliceRow :: db) = .keyError := by
  constructor
  · simp [get_stats, List.lookup]
  · simp [print_stats, get_stats, List.lookup]

/-- C10: `writeResult` with an identity absent from the store leaves the
store unchanged, and in all cases it preserves every row's `username` and
`followed_at` columns (in particular no row is inserted or deleted). -/
theorem claim_C10_update_frame (db : List Follower) (f : Follower) :
    ((∀ r ∈ db, r.username ≠ f.username) → update_result db f = db) ∧
    (update_result db f).map (fun r => (r.username, r.followed_at)) =
      db.map (fun r => (r.username, r.followed_at)) := by
  constructor
  · intro h
    unfold update_result
    conv_rhs => rw [← List.map_id db]
    apply List.map_congr_left
    intro r hr
    rw [if_neg (h r hr)]
    rfl
  · unfold update_result
    rw [List.map_map]
    apply List.map_congr_left
    intro r _
    by_cases hc : r.username = f.username <;> simp [Function.comp, hc]

/-- Witness for C10: writing a result for `bob` into a store holding only
`alice` leaves the store unchanged. -/
theorem claim_C10_witness : update_result [aliceRow] bobResolved = [aliceRow] :=
  (claim_C10_update_frame [aliceRow] bobResolved).1 (by decide)

/-- C6: `wait_before_request` evaluates its policy in strict order: a full
trailing-24h window signals a hard-stop reporting when the oldest counted
event exits the window; otherwise a full session counter performs one rest
of the configured duration and resets the counter to zero; otherwise a
full trailing-1h window (with its oldest event strictly inside the
window) sleeps exactly until that oldest event expires; otherwise the
long-pause/jitter rules apply. -/
theorem claim_C6_admit_policy_order (rl : RateLimiter)
    (now pd jd : ℚ) (nd : Nat) (t t' : ℚ) (ts ts' : List ℚ) :
    (prune (now - 86400) rl.daily_timestamps = t :: ts →
      rl.daily_cap ≤ (t :: ts).length →
      (wait_before_request rl now pd jd nd).1 =
        .stop (some (86400 - (now - t)))) ∧
    ((prune (now - 86400) rl.daily_timestamps).length < rl.daily_cap →
      rl.session_cap ≤ rl.session_count →
      (wait_before_request rl now pd jd nd).1 =
          .sessionRest rl.session_rest ∧
        (wait_before_request rl now pd jd nd).2.session_count = 0) ∧
    ((prune (now - 86400) rl.daily_timestamps).length < rl.daily_cap →
      rl.session_count < rl.session_cap →
      prune (now - 3600) rl.hourly_timestamps = t' :: ts' →
      rl.hourly_cap ≤ (t' :: ts').length →
      now - 3600 < t' →
      (wait_before_request rl now pd jd nd).1 =
        .hourlyWait (3600 - (now - t'))) ∧
    ((prune (now - 86400) rl.daily_timestamps).length < rl.daily_cap →
      rl.session_count < rl.session_cap →
      (prune (now - 3600) rl.hourly_timestamps).length < rl.hourly_cap →
      ((wait_before_request rl now pd jd nd).1 = .longPause pd ∨
        (wait_before_request rl now pd jd nd).1 = .jitter jd)) := by
  refine ⟨?_, ?_, ?_, ?_⟩
  · intro hp hc
    simp only [wait_before_request]
    rw [hp, if_pos hc]
  · intro hd hs
    simp only [wait_before_request]
    rw [if_neg (by omega), if_pos hs]
    exact ⟨rfl, rfl⟩
  · intro hd hs hp hc hw
    simp only [wait_before_request]
    rw [if_neg (by omega), if_neg (by omega), hp, if_pos hc]
    have h0 : (0 : ℚ) < 3600 - (now - t') := by linarith
    simp [h0]
  · intro hd hs hh
    simp only [wait_before_request]
    rw [if_neg (by omega), if_neg (by omega), if_neg (by omega)]
    unfold afterCaps
    by_cases hl : rl.next_long_pause_at ≤ rl.since_long_pause
    · rw [if_pos hl]; exact Or.inl rfl
    · rw [if_neg hl]; exact Or.inr rfl

/-- Witness for C6: the daily hard-stop, session rest, hourly wait and
jitter branches at concrete limiter states. -/
theorem claim_C6_witness :
    (wait_before_request rlDaily 100 0 0 10).1 = .stop (some 86310) ∧
    ((wait_before_request rlSession 0 0 0 10).1 = .sessionRest 7200 ∧
      (wait_before_request rlSession 0 0 0 10).2.session_count = 0) ∧
    (wait_before_request rlHourly 3600 0 0 10).1 = .hourlyWait 3000 ∧
    ((wait_before_request rlFresh 0 5 42 10).1 = .longPause 5 ∨
      (wait_before_request rlFresh 0 5 42 10).1 = .jitter 42) := by
  refine ⟨?_, ?_, ?_, ?_⟩
  · have h := (claim_C6_admit_policy_order rlDaily 100 0 0 10 10 0 [] []).1
      (by norm_num [rlDaily, prune]) (by decide)
    rw [h]; norm_num
  · have h := (claim_C6_admit_policy_order rlSession 0 0 0 10 0 0 [] []).2.1
      (by norm_num [rlSession, prune]) (by decide)
    exact ⟨h.1.trans (by simp [rlSession]), h.2⟩
  · have h :=
      (claim_C6_admit_policy_order rlHourly 3600 0 0 10 0 3000 [] []).2.2.1
        (by norm_num [rlHourly, prune]) (by decide)
        (by norm_num [rlHourly, prune]) (by decide) (by norm_num)
    rw [h]; norm_num
  · exact (claim_C6_admit_policy_order rlFresh 0 5 42 10 0 0 [] []).2.2.2
      (by norm_num [rlFresh, prune]) (by decide)
      (by norm_num [rlFresh, prune])

/-- C7: `recordThrottleSignal` never appends to the hourly or daily
rolling windows (any number of consecutive calls leaves both unchanged),
its call after `n` earlier consecutive calls sleeps
`base * 2^(consecutive + n)` — with base 120 the first three consecutive
calls sleep 120, 240, 480 — and a `recordSuccess` resets the consecutive
counter to zero so the next backoff is the base again. -/
theorem claim_C7_throttle_backoff (rl : RateLimiter) (n : Nat) (now : ℚ) :
    (handleIter n rl).hourly_timestamps = rl.hourly_timestamps ∧
    (handleIter n rl).daily_timestamps = rl.daily_timestamps ∧
    (handle_rate_limit (handleIter n rl)).1 =
      rl.rate_limit_cooldown * 2 ^ (rl.consecutive_rate_limits + n) ∧
    (record_request rl now).consecutive_rate_limits = 0 ∧
    (handle_rate_limit (record_request rl now)).1 =
      rl.rate_limit_cooldown ∧
    (handle_rate_limit limiter120).1 = 120 ∧
    (handle_rate_limit (handle_rate_limit limiter120).2).1 = 240 ∧
    (handle_rate_limit
      (handle_rate_limit (handle_rate_limit limiter120).2).2).1 = 480 ∧
    (handle_rate_limit (record_request
      (handle_rate_limit (handle_rate_limit limiter120).2).2 now)).1 =
      120 := by
  have h := handleIter_state n rl
  refine ⟨h.1, h.2.1, ?_, rfl, ?_,
    by norm_num [handle_rate_limit, limiter120],
    by norm_num [handle_rate_limit, limiter120],
    by norm_num [handle_rate_limit, limiter120], ?_⟩
  · show (handleIter n rl).rate_limit_cooldown *
      2 ^ ((handleIter n rl).consecutive_rate_limits + 1 - 1) = _
    rw [h.2.2.1, h.2.2.2]
    norm_num
  · show rl.rate_limit_cooldown * 2 ^ (0 + 1 - 1) = _
    norm_num
  · show (120 : ℚ) * 2 ^ (0 + 1 - 1) = 120
    norm_num

/-- C5: session invalidation, challenge/checkpoint connection errors and
suspicious 400/403 connection errors raise an abort carrying an
operator-actionable message; an abort at an item stops the inner batch
loop with the store exactly as it was (no row written for the triggering
item, no later item processed), and the outer batch loop returns that
result immediately. -/
theorem claim_C5_abort_semantics
    (db : List Follower) (outcome : String → FetchOutcome)
    (admits : Nat → AdmitResult) (f : Follower) (rest : List Follower)
    (p s k : Nat) (m msg : String) (fuel batch_size max_retries : Nat) :
    (lookup_single f (.loginRequired msg) = .error sessionExpiredMsg) ∧
    ((strContains (strLower msg) "checkpoint" ∨
        strContains (strLower msg) "challenge") →
      lookup_single f (.connectionError msg) = .error (challengeMsg msg)) ∧
    (¬(strContains (strLower msg) "checkpoint" ∨
        strContains (strLower msg) "challenge") →
      (strContains msg "400" ∨ strContains msg "403") →
      lookup_single f (.connectionError msg) = .error (suspiciousMsg msg)) ∧
    (admits p = .ok →
      lookup_single f (outcome f.username) = .error m →
      processBatch outcome admits db (f :: rest) p s k =
        .finished db ⟨p, s, k, m⟩) ∧
    (admits p = .ok →
      lookup_single f (outcome f.username) = .error m →
      get_pending db batch_size max_retries = f :: rest →
      runLookup outcome admits batch_size max_retries (fuel + 1) db p s k =
        (db, ⟨p, s, k, m⟩)) := by
  have hbatch : admits p = .ok →
      lookup_single f (outcome f.username) = .error m →
      processBatch outcome admits db (f :: rest) p s k =
        .finished db ⟨p, s, k, m⟩ := by
    intro ha hl
    simp only [processBatch]
    rw [ha, hl]
  refine ⟨rfl, ?_, ?_, hbatch, ?_⟩
  · intro h
    simp only [lookup_single]
    rw [if_pos h]
  · intro h1 h2
    simp only [lookup_single]
    rw [if_neg h1, if_pos h2]
  · intro ha hl hg
    simp only [runLookup]
    rw [hg]
    simp [hbatch ha hl]

/-- Witness for C5: a store holding only pending `alice`, a network that
raises `LoginRequiredException` on every fetch, a limiter that admits
every step — the whole run returns immediately with the session-expired
abort message and the store untouched. -/
theorem claim_C5_witness :
    runLookup loginRequiredOutcome admitsOk 50 3 1 [aliceRow] 0 0 0 =
      ([aliceRow], ⟨0, 0, 0, sessionExpiredMsg⟩) :=
  (claim_C5_abort_semantics [aliceRow] loginRequiredOutcome admitsOk
    aliceRow [] 0 0 0 sessionExpiredMsg "x" 0 50 3).2.2.2.2 rfl rfl
    (by decide)

/-- C8: the telemetry-driven tiers hold exactly as claimed, and with no
telemetry the delay is the fixed conservative default. -/
theorem claim_C8_usage_delay (c : Int) :
    (95 ≤ c → delay_from_usage (some c) = 300) ∧
    (80 ≤ c → c < 95 → delay_from_usage (some c) = 60) ∧
    (60 ≤ c → c < 80 → delay_from_usage (some c) = 20) ∧
    (40 ≤ c → c < 60 → delay_from_usage (some c) = 5) ∧
    (c < 40 → delay_from_usage (some c) = 1) ∧
    delay_from_usage none = DEFAULT_NO_HEADER_DELAY := by
  simp only [delay_from_usage]
  refine ⟨?_, ?_, ?_, ?_, ?_, trivial⟩
  · intro h; rw [if_pos h]
  · intro h1 h2; rw [if_neg (by omega), if_pos h1]
  · intro h1 h2; rw [if_neg (by omega), if_neg (by omega), if_pos h1]
  · intro h1 h2
    rw [if_neg (by omega), if_neg (by omega), if_neg (by omega), if_pos h1]
  · intro h
    rw [if_neg (by omega), if_neg (by omega), if_neg (by omega),
      if_neg (by omega)]

/-- Witness for C8: one call count per tier. -/
theorem claim_C8_witness :
    delay_from_usage (some 97) = 300 ∧ delay_from_usage (some 85) = 60 ∧
    delay_from_usage (some 65) = 20 ∧ delay_from_usage (some 45) = 5 ∧
    delay_from_usage (some 10) = 1 :=
  ⟨(claim_C8_usage_delay 97).1 (by decide),
    (claim_C8_usage_delay 85).2.1 (by decide) (by decide),
    (claim_C8_usage_delay 65).2.2.1 (by decide) (by decide),
    (claim_C8_usage_delay 45).2.2.2.1 (by decide) (by decide),
    (claim_C8_usage_delay 10).2.2.2.2.1 (by decide)⟩

/-- Counterexample for C8 as stated: with no telemetry the code sleeps a
fixed 10 seconds, strictly below the minimum delay the section-4.1
admit() policy configured for this source can produce (its first-call
branch is the uniform jitter in the 17..21 range), whereas the claim says
the delay falls back to that policy. -/
theorem claim_C8_counterexample :
    delay_from_usage none = 10 ∧
    delay_from_usage none < specGraphApiFallbackLimiter.min_delay ∧
    (wait_before_request specGraphApiFallbackLimiter 0 0 17 10).1 =
      .jitter 17 := by
  refine ⟨rfl, by norm_num [delay_from_usage, DEFAULT_NO_HEADER_DELAY,
    specGraphApiFallbackLimiter, graph_api_min_delay], ?_⟩
  simp [wait_before_request, specGraphApiFallbackLimiter, prune, afterCaps]

/-- C9 (amended): a non-success, non-throttle sub-response is classified
`graph_api_miss` with `lastError` set, while the attempts counter is left
unchanged (the code does not increment it). -/
theorem claim_C9_soft_miss_classification (f : Follower) (r : SubResponse) :
    r.code ≠ 200 → r.code ≠ 429 →
    ¬((r.body.error.getD {}).code = some 4 ∨
      (r.body.error.getD {}).code = some 32) →
    (parse_sub_response f r).lookup_status = .graph_api_miss ∧
    (parse_sub_response f r).error_message =
      some ("Graph API: " ++
        ((r.body.error.getD {}).message.getD (r.body.raw.take 200))) ∧
    (parse_sub_response f r).retry_count = f.retry_count := by
  intro h1 h2 h3
  simp only [parse_sub_response]
  rw [if_neg h1, if_neg h2, if_neg h3]
  exact ⟨rfl, rfl, rfl⟩

/-- Witness for C9: a 500 sub-response with a non-throttle error code is a
soft miss with the error message recorded and attempts untouched. -/
theorem claim_C9_witness :
    (parse_sub_response carolRow subResp500).lookup_status =
        .graph_api_miss ∧
      (parse_sub_response carolRow subResp500).error_message =
        some ("Graph API: " ++
          ((subResp500.body.error.getD {}).message.getD
            (subResp500.body.raw.take 200))) ∧
      (parse_sub_response carolRow subResp500).retry_count =
        carolRow.retry_count :=
  claim_C9_soft_miss_classification carolRow subResp500 (by decide)
    (by decide) (by decide)

/-- Counterexample for C9 as stated: at this soft-missed sub-response the
attempts counter is not incremented by 1. -/
theorem claim_C9_counterexample :
    (parse_sub_response carolRow subResp500).lookup_status =
        .graph_api_miss ∧
      (parse_sub_response carolRow subResp500).retry_count ≠
        carolRow.retry_count + 1 := by
  decide

end InstaReviewer
